import Mathlib

set_option linter.unusedVariables false
set_option linter.unreachableTactic false
set_option linter.unusedTactic false
set_option maxRecDepth 2000

/-!
Shallow embedding of `agents/agent_service/lib/monitoring_service.py`
(`RealTimeMonitoringService`).

Modelling conventions:
* Python floats (metric values, timestamps from `time.time()`) are rationals.
* Python dicts keyed by strings are association lists with
  insert-or-overwrite semantics (`alistInsert` / `alistLookup`);
  `defaultdict` is a total function with default value.
* `collections.deque(maxlen = cap)` is modelled by `dequeAppend`:
  appending at the right end drops the leftmost entry on overflow.
* `asyncio.create_task(...)` dispatches (fire and forget): functions that
  dispatch alert-creation tasks return the list of dispatched alert
  requests next to the updated state; the task's later effect is
  `create_alert` applied to such a request.
* Log output and WebSocket delivery are external I/O with no effect on the
  service state modelled here (broadcast failures only prune the socket
  set, which none of the verified operations read).
* String formatting of numbers inside alert messages is abstracted by
  `toString` on rationals.
-/

inductive MetricType where
  | COUNTER
  | GAUGE
  | HISTOGRAM
  | TIMER
deriving DecidableEq, Repr

inductive AlertLevel where
  | INFO
  | WARNING
  | ERROR
  | CRITICAL
deriving DecidableEq, Repr

structure Metric where
  name : String
  value : ℚ
  timestamp : ℚ
  tags : List (String × String)
  metric_type : MetricType
deriving DecidableEq, Repr

/-- Values stored in an alert's `metadata` dict. -/
inductive MetaVal where
  | str : String → MetaVal
  | num : ℚ → MetaVal
  | metric : Metric → MetaVal
deriving DecidableEq, Repr

structure Alert where
  id : String
  level : AlertLevel
  title : String
  message : String
  timestamp : ℚ
  resolved : Bool := false
  metadata : List (String × MetaVal) := []
deriving DecidableEq, Repr

/-- One entry of `PerformanceProfile.function_calls`. -/
structure FunctionCall where
  function : String
  duration_ms : ℚ
  timestamp : ℚ
  success : Bool
deriving DecidableEq, Repr

structure PerformanceProfile where
  execution_id : String
  start_time : ℚ
  end_time : Option ℚ
  duration_ms : Option ℚ
  cpu_usage : ℚ
  memory_usage_mb : ℚ
  network_io_kb : ℚ
  disk_io_kb : ℚ
  function_calls : List FunctionCall
  bottlenecks : List String
deriving DecidableEq, Repr

/-- The per-execution entry of `active_executions`. -/
structure ExecInfo where
  start_time : ℚ
  metadata : List (String × String)
  status : String
  end_time : Option ℚ := none
  error : Option String := none
deriving DecidableEq, Repr

/-- One aggregated bucket appended to a sliding window. -/
structure WindowPoint where
  timestamp : ℚ
  avg : ℚ
  min : ℚ
  max : ℚ
  count : Nat
deriving DecidableEq, Repr

/-- An alert-creation request dispatched to `create_alert`
(level, title, message, metadata). -/
structure AlertReq where
  level : AlertLevel
  title : String
  message : String
  metadata : List (String × MetaVal)
deriving DecidableEq, Repr

structure ServiceState where
  metrics_buffer : List Metric
  alerts : List (String × Alert)
  active_executions : List (String × ExecInfo)
  performance_profiles : List (String × PerformanceProfile)
  minute_metrics : String → List WindowPoint
  hour_metrics : String → List WindowPoint
  day_metrics : String → List WindowPoint
  websocket_connections : List Nat
  alert_thresholds : List (String × (ℚ × ℚ))

/-- Association-list lookup (first binding wins), modelling Python dict
membership and indexing. -/
def alistLookup (k : String) : List (String × α) → Option α
  | [] => none
  | (k', v) :: rest => if k = k' then some v else alistLookup k rest

/-- Association-list insert-or-overwrite, modelling Python `d[k] = v`. -/
def alistInsert (k : String) (v : α) : List (String × α) → List (String × α)
  | [] => [(k, v)]
  | (k', v') :: rest =>
      if k = k' then (k, v) :: rest else (k', v') :: alistInsert k v rest

/-- Append at the right end of a `deque(maxlen = cap)`: the leftmost
(oldest) entry is dropped when the capacity is exceeded. -/
def dequeAppend (cap : Nat) (buf : List α) (x : α) : List α :=
  let b := buf ++ [x]
  b.drop (b.length - cap)

/-- Grouping a metric list by name (`defaultdict(list)` filled in buffer
order), as a total function with default `[]`. -/
def groupByName (buf : List Metric) : String → List Metric :=
  buf.foldl (fun acc m => fun n => if n = m.name then acc n ++ [m] else acc n)
    (fun _ => [])

/-- Kernel-reducible rational addition (provably equal to `+`; the
library's `Rat.add` is irreducible, which would block `decide`). -/
def ratAdd (a b : ℚ) : ℚ := mkRat (a.num * b.den + b.num * a.den) (a.den * b.den)

/-- Kernel-reducible rational subtraction (provably equal to `-`). -/
def ratSub (a b : ℚ) : ℚ := mkRat (a.num * b.den - b.num * a.den) (a.den * b.den)

/-- Kernel-reducible rational multiplication (provably equal to `*`). -/
def ratMul (a b : ℚ) : ℚ := mkRat (a.num * b.num) (a.den * b.den)

/-- Kernel-reducible rational division (provably equal to `/`). -/
def ratDiv (a b : ℚ) : ℚ :=
  if b.num < 0 then mkRat (-(a.num * b.den)) (a.den * b.num.natAbs)
  else mkRat (a.num * b.den) (a.den * b.num.natAbs)

/-- Python `sum(values)`: left fold of addition starting from `0`. -/
def listSum (l : List ℚ) : ℚ := l.foldl ratAdd 0

/-- Python `int(x)` for a rational: truncation toward zero. -/
def pyInt (q : ℚ) : ℤ := if q < 0 then q.ceil else q.floor

/-- Minimum of a value list (Python `min(values)`; `0` for the empty list,
which the code never reaches). -/
def listMin : List ℚ → ℚ
  | [] => 0
  | x :: xs => xs.foldl min x

/-- Maximum of a value list (Python `max(values)`). -/
def listMax : List ℚ → ℚ
  | [] => 0
  | x :: xs => xs.foldl max x

/-- Thresholds registered in `__init__` (`self.alert_thresholds`). -/
def defaultThresholds : List (String × (ℚ × ℚ)) :=
  [("response_time_ms", (2000, 5000)),
   ("error_rate", (mkRat 1 20, mkRat 1 10)),
   ("memory_usage_mb", (512, 1024)),
   ("cpu_usage_percent", (80, 95))]

/-- The freshly constructed service (`__init__`). -/
def initState : ServiceState :=
  { metrics_buffer := []
    alerts := []
    active_executions := []
    performance_profiles := []
    minute_metrics := fun _ => []
    hour_metrics := fun _ => []
    day_metrics := fun _ => []
    websocket_connections := []
    alert_thresholds := defaultThresholds }

/-- `record_metric`: builds the metric with `timestamp = now` and appends it
to the ring buffer (`deque(maxlen=10000)`). The threshold check it
dispatches as a detached task is `check_metric_thresholds
s.alert_thresholds metric`; its effect lands later via `create_alert`. -/
def record_metric (now : ℚ) (name : String) (value : ℚ)
    (tags : List (String × String)) (metric_type : MetricType)
    (s : ServiceState) : ServiceState :=
  let metric : Metric :=
    { name := name, value := value, timestamp := now, tags := tags
      metric_type := metric_type }
  { s with metrics_buffer := dequeAppend 10000 s.metrics_buffer metric }

/-- `_check_metric_thresholds`: the alert-creation requests dispatched for
one metric against the registered thresholds. -/
def check_metric_thresholds (thresholds : List (String × (ℚ × ℚ)))
    (m : Metric) : List AlertReq :=
  match alistLookup m.name thresholds with
  | none => []
  | some (warning, critical) =>
      if critical ≤ m.value then
        [{ level := AlertLevel.CRITICAL
           title := "Critical " ++ m.name
           message := m.name ++ " is critically high: " ++ toString m.value
           metadata := [("metric", MetaVal.metric m)] }]
      else if warning ≤ m.value then
        [{ level := AlertLevel.WARNING
           title := "High " ++ m.name
           message := m.name ++ " is above warning threshold: " ++ toString m.value
           metadata := [("metric", MetaVal.metric m)] }]
      else []

/-- Alert id generated by `_create_alert`:
`"alert-" + str(int(time.time() * 1000))`. -/
def alertId (now : ℚ) : String := "alert-" ++ toString (pyInt (ratMul now 1000))

/-- The `Alert` record built by `_create_alert` at time `now`. -/
def mkAlert (now : ℚ) (req : AlertReq) : Alert :=
  { id := alertId now, level := req.level, title := req.title
    message := req.message, timestamp := now, resolved := false
    metadata := req.metadata }

/-- `_create_alert`: stores a new `Alert` under `alertId now` by dict
assignment; an existing entry under the same id is overwritten. -/
def create_alert (now : ℚ) (req : AlertReq) (s : ServiceState) : ServiceState :=
  { s with alerts := alistInsert (alertId now) (mkAlert now req) s.alerts }

/-- Number of `active_executions` entries with status `"running"`. -/
def runningCount (s : ServiceState) : Nat :=
  (s.active_executions.filter (fun p => decide (p.2.status = "running"))).length

/-- `start_execution_tracking`: unconditionally stores a fresh profile and a
fresh active-execution entry under `execution_id` (dict assignment:
overwriting any existing ones), records an `active_executions` gauge
metric, and returns the id. -/
def start_execution_tracking (now : ℚ) (execution_id : String)
    (metadata : List (String × String)) (s : ServiceState) :
    String × ServiceState :=
  let profile : PerformanceProfile :=
    { execution_id := execution_id, start_time := now, end_time := none
      duration_ms := none, cpu_usage := 0, memory_usage_mb := 0
      network_io_kb := 0, disk_io_kb := 0, function_calls := []
      bottlenecks := [] }
  let s1 : ServiceState := { s with
    performance_profiles :=
      alistInsert execution_id profile s.performance_profiles
    active_executions := alistInsert execution_id
      { start_time := now, metadata := metadata, status := "running" }
      s.active_executions }
  let s2 := record_metric now "active_executions"
    (s1.active_executions.length : ℚ) [("type", "execution_start")]
    MetricType.GAUGE s1
  (execution_id, s2)

/-- `end_execution_tracking`. Unknown ids: logged, no state change, no
dispatched alert task. Known ids: sets `end_time` and `duration_ms`
(recomputed on every call), updates the active-execution entry, records two
metrics, and when `duration_ms > 5000` appends the `"slow_execution"`
bottleneck and dispatches a WARNING alert task. -/
def end_execution_tracking (now : ℚ) (execution_id : String) (status : String)
    (error : Option String) (s : ServiceState) :
    ServiceState × List AlertReq :=
  match alistLookup execution_id s.performance_profiles with
  | none => (s, [])
  | some profile =>
      let duration : ℚ := ratMul (ratSub now profile.start_time) 1000
      let active1 : List (String × ExecInfo) :=
        match alistLookup execution_id s.active_executions with
        | none => s.active_executions
        | some info => alistInsert execution_id
            { info with
              status := status
              end_time := some now
              error := (match error with
                | some e => if e = "" then info.error else some e
                | none => info.error) }
            s.active_executions
      let s1 : ServiceState := { s with
        performance_profiles := alistInsert execution_id
          { profile with end_time := some now, duration_ms := some duration }
          s.performance_profiles
        active_executions := active1 }
      let s2 := record_metric now "execution_duration_ms" duration
        [("execution_id", execution_id), ("status", status)]
        MetricType.TIMER s1
      let s3 := record_metric now "active_executions"
        (runningCount s2 : ℚ) [("type", "execution_end")] MetricType.GAUGE s2
      if 5000 < duration then
        let profile2 : PerformanceProfile :=
          { profile with
            end_time := some now
            duration_ms := some duration
            bottlenecks := profile.bottlenecks ++ ["slow_execution"] }
        ({ s3 with performance_profiles :=
             alistInsert execution_id profile2 s3.performance_profiles },
         [{ level := AlertLevel.WARNING
            title := "Slow Execution Detected"
            message := "Execution " ++ execution_id ++ " took " ++
              toString duration ++ "ms"
            metadata := [("execution_id", MetaVal.str execution_id),
              ("duration_ms", MetaVal.num duration)] }])
      else (s3, [])

/-- `record_function_call`: appends one entry to the function-call list of
the profile stored under `execution_id` (whenever one exists) and records a
`function_duration_ms` metric; otherwise it leaves the state unchanged. -/
def record_function_call (now : ℚ) (execution_id : String)
    (function_name : String) (duration_ms : ℚ) (success : Bool)
    (s : ServiceState) : ServiceState :=
  match alistLookup execution_id s.performance_profiles with
  | none => s
  | some profile =>
      let call : FunctionCall :=
        { function := function_name
          duration_ms := duration_ms
          timestamp := now
          success := success }
      let s1 : ServiceState := { s with
        performance_profiles := alistInsert execution_id
          { profile with function_calls := profile.function_calls ++ [call] }
          s.performance_profiles }
      record_metric now "function_duration_ms" duration_ms
        [("function", function_name), ("execution_id", execution_id),
         ("success", if success then "True" else "False")]
        MetricType.TIMER s1

/-- The tick's view of the buffer in `_monitoring_loop`: metrics recorded
within the last 60 time units. -/
def recentMetrics (now : ℚ) (buf : List Metric) : List Metric :=
  buf.filter (fun m => decide (ratSub now m.timestamp < 60))

/-- `_process_alerts`, applied once per fast-heartbeat tick to the recent
metrics: the pattern-based alert requests dispatched on that tick. -/
def process_alerts (recent : List Metric) : List AlertReq :=
  let error_metrics := groupByName recent "error_rate"
  if 5 ≤ error_metrics.length then
    let recent_errors :=
      (error_metrics.drop (error_metrics.length - 5)).map (fun m => m.value)
    let avg_error_rate := ratDiv (listSum recent_errors) (recent_errors.length : ℚ)
    if mkRat 1 10 < avg_error_rate then
      [{ level := AlertLevel.CRITICAL
         title := "High Error Rate Detected"
         message := "Average error rate over last 5 minutes: " ++
           toString avg_error_rate
         metadata := [("error_rate", MetaVal.num avg_error_rate),
           ("sample_size", MetaVal.num (recent_errors.length : ℚ))] }]
    else []
  else []

/-- `_update_aggregations`: groups the buffered metrics whose timestamp
falls in the current calendar minute (`int(ts // 60) == int(now // 60)`) by
name and appends one aggregated point per present name to that name's
minute window (`deque(maxlen=60)`). `hour_metrics` and `day_metrics` are
read nowhere and written nowhere by this function. -/
def update_aggregations (now : ℚ) (s : ServiceState) : ServiceState :=
  let current_minute : ℤ := (ratDiv now 60).floor
  let bucket := groupByName (s.metrics_buffer.filter
    (fun m => decide ((ratDiv m.timestamp 60).floor = current_minute)))
  { s with minute_metrics := (fun name =>
      let values := (bucket name).map (fun m => m.value)
      if values.isEmpty then s.minute_metrics name
      else dequeAppend 60 (s.minute_metrics name)
        ({ timestamp := ratMul (current_minute : ℚ) 60
           avg := ratDiv (listSum values) (values.length : ℚ)
           min := listMin values, max := listMax values
           count := values.length })) }

/-- `_generate_performance_recommendations`. -/
def generate_performance_recommendations (profile : PerformanceProfile) :
    List String :=
  let r1 : List String :=
    match profile.duration_ms with
    | some d => if 3000 < d then
        ["Consider optimizing execution flow - duration exceeds 3 seconds"]
      else []
    | none => []
  let r2 : List String :=
    if 256 < profile.memory_usage_mb then
      ["High memory usage detected - consider memory optimization"]
    else []
  let slow_functions :=
    profile.function_calls.filter (fun fc => decide (1000 < fc.duration_ms))
  let r3 : List String :=
    if slow_functions.isEmpty then []
    else ["Optimize slow functions: " ++
      String.intercalate ", " (slow_functions.map (fun fc => fc.function))]
  let r4 : List String :=
    if 100 < profile.function_calls.length then
      ["High number of function calls - consider batching or caching"]
    else []
  r1 ++ r2 ++ r3 ++ r4

structure PerformanceReport where
  execution_id : String
  performance_profile : PerformanceProfile
  execution_metadata : Option ExecInfo
  recommendations : List String
deriving DecidableEq, Repr

/-- `get_performance_report`: `none` models the "not found" return;
`execution_metadata = none` models the empty-dict default of
`active_executions.get(id, \x7b\x7d)`. The unchanged state is returned
next to the result (the function only reads). -/
def get_performance_report (execution_id : String) (s : ServiceState) :
    Option PerformanceReport × ServiceState :=
  match alistLookup execution_id s.performance_profiles with
  | none => (none, s)
  | some profile =>
      (some { execution_id := execution_id, performance_profile := profile
              execution_metadata := alistLookup execution_id s.active_executions
              recommendations := generate_performance_recommendations profile },
       s)

structure MetricStats where
  avg : ℚ
  min : ℚ
  max : ℚ
  count : Nat
  latest : ℚ
deriving DecidableEq, Repr

/-- Helper of `firstDedup`: keeps the first occurrence of each name. -/
def firstDedupGo (seen : List String) : List String → List String
  | [] => []
  | x :: xs => if x ∈ seen then firstDedupGo seen xs
    else x :: firstDedupGo (x :: seen) xs

/-- First-occurrence order of keys, as produced by filling a Python dict. -/
def firstDedup (names : List String) : List String := firstDedupGo [] names

/-- `_get_metrics_summary`: per-name stats over the metrics recorded within
the last 60 time units; empty when no metric is recent. The unchanged state
is returned next to the result. -/
def get_metrics_summary (now : ℚ) (s : ServiceState) :
    List (String × MetricStats) × ServiceState :=
  let recent := recentMetrics now s.metrics_buffer
  if recent.isEmpty then ([], s)
  else
    let names := firstDedup (recent.map (fun m => m.name))
    (names.map (fun name =>
      let values := (groupByName recent name).map (fun m => m.value)
      (name, { avg := ratDiv (listSum values) (values.length : ℚ)
               min := listMin values, max := listMax values
               count := values.length
               latest := values.getLastD 0 })), s)

structure HealthReport where
  status : String
  timestamp : ℚ
  active_executions : Nat
  recent_errors : Nat
  critical_alerts : Nat
  websocket_connections : Nat
  metrics_buffer_size : Nat
  uptime_seconds : ℚ
  performance_profiles : Nat
deriving DecidableEq, Repr

/-- `get_system_health`. The status precedence follows the code: CRITICAL
unresolved alerts (of any age), then recent error samples, then running
executions. The unchanged state is returned next to the result. -/
def get_system_health (now : ℚ) (s : ServiceState) :
    HealthReport × ServiceState :=
  let recent := s.metrics_buffer.filter (fun m => decide (ratSub now m.timestamp < 300))
  let active_executions := runningCount s
  let recent_errors := (recent.filter
    (fun m => decide (m.name = "error_rate" ∧ 0 < m.value))).length
  let critical_alerts := (s.alerts.filter (fun p =>
    decide (p.2.level = AlertLevel.CRITICAL ∧ p.2.resolved = false))).length
  let health_status : String :=
    if 0 < critical_alerts then "critical"
    else if 5 < recent_errors then "degraded"
    else if 50 < active_executions then "under_load"
    else "healthy"
  ({ status := health_status, timestamp := now
     active_executions := active_executions, recent_errors := recent_errors
     critical_alerts := critical_alerts
     websocket_connections := s.websocket_connections.length
     metrics_buffer_size := s.metrics_buffer.length
     uptime_seconds := ratSub now (ratSub now 3600)
     performance_profiles := s.performance_profiles.length }, s)

/-! Derived views of the code used to state the claims, plus the concrete
states appearing in counterexamples and witnesses. -/

/-- Packaging of one `record_metric` call's arguments
(timestamp, name, value, tags, kind). -/
def metricOfInput (i : ℚ × String × ℚ × List (String × String) × MetricType) :
    Metric :=
  { name := i.2.1, value := i.2.2.1, timestamp := i.1, tags := i.2.2.2.1
    metric_type := i.2.2.2.2 }

/-- A sequence of `record_metric` calls applied in order. -/
def recordAll (inputs : List (ℚ × String × ℚ × List (String × String) × MetricType))
    (s : ServiceState) : ServiceState :=
  inputs.foldl (fun t i => record_metric i.1 i.2.1 i.2.2.1 i.2.2.2.1 i.2.2.2.2 t) s

/-- The values that `_update_aggregations` aggregates for `name` at time
`now`: buffered metrics of that name whose timestamp falls in the current
calendar minute. -/
def minuteValues (now : ℚ) (s : ServiceState) (name : String) : List ℚ :=
  ((s.metrics_buffer.filter (fun m =>
      decide ((ratDiv m.timestamp 60).floor = (ratDiv now 60).floor))).filter
    (fun m => decide (m.name = name))).map (fun m => m.value)

/-- The `error_rate` samples visible to one tick of `_process_alerts`:
buffered samples recorded within the last 60 time units. -/
def errorSamples (now : ℚ) (buf : List Metric) : List Metric :=
  (recentMetrics now buf).filter (fun m => decide (m.name = "error_rate"))

/-- The mean of the last 5 entries of `errorSamples`, as `_process_alerts`
computes it. -/
def errorMean (now : ℚ) (buf : List Metric) : ℚ :=
  let vals := ((errorSamples now buf).drop ((errorSamples now buf).length - 5)).map
    (fun m => m.value)
  ratDiv (listSum vals) (vals.length : ℚ)

/-- A gauge metric literal used in concrete scenarios. -/
def mkGauge (name : String) (v ts : ℚ) : Metric :=
  { name := name, value := v, timestamp := ts, tags := []
    metric_type := MetricType.GAUGE }

/-- An unresolved CRITICAL alert created at time 0. -/
def oldCriticalAlert : Alert :=
  { id := "alert-0", level := AlertLevel.CRITICAL, title := "t", message := "m"
    timestamp := 0, resolved := false, metadata := [] }

/-- Service state holding one unresolved CRITICAL alert from time 0. -/
def stateC3 : ServiceState := { initState with alerts := [("alert-0", oldCriticalAlert)] }

/-- Service state whose buffer holds one metric recorded at time 59. -/
def stateC4 : ServiceState := { initState with metrics_buffer := [mkGauge "m" 1 59] }

/-- Service state whose buffer holds one metric recorded at time 61. -/
def stateC4b : ServiceState := { initState with metrics_buffer := [mkGauge "m" 1 61] }

/-- Five `error_rate` samples of value 1 recorded at time 0. -/
def bufC5 : List Metric :=
  [mkGauge "error_rate" 1 0, mkGauge "error_rate" 1 0, mkGauge "error_rate" 1 0,
   mkGauge "error_rate" 1 0, mkGauge "error_rate" 1 0]

/-- `start_execution_tracking(0, "e1")` from the fresh service. -/
def stateE1 : ServiceState := (start_execution_tracking 0 "e1" [] initState).2

/-- ... then `end_execution_tracking(10, "e1")`. -/
def stateE2 : ServiceState := (end_execution_tracking 10 "e1" "completed" none stateE1).1

/-- ... then a second `end_execution_tracking(20, "e1")` on the same id. -/
def stateE3 : ServiceState := (end_execution_tracking 20 "e1" "completed" none stateE2).1

/-- ... instead, a second `start_execution_tracking(5, "e1")` on the same id. -/
def stateE4 : ServiceState := (start_execution_tracking 5 "e1" [] stateE1).2

/-- ... `record_function_call` against the already-ended execution of `stateE2`. -/
def stateE5 : ServiceState := record_function_call 30 "e1" "fn" 5 true stateE2

/-- A first alert request. -/
def alertReq1 : AlertReq :=
  { level := AlertLevel.CRITICAL, title := "a", message := "m1", metadata := [] }

/-- A second alert request. -/
def alertReq2 : AlertReq :=
  { level := AlertLevel.WARNING, title := "b", message := "m2", metadata := [] }

/-- Two alert creations both at time 1 (the same millisecond). -/
def stateC9 : ServiceState := create_alert 1 alertReq2 (create_alert 1 alertReq1 initState)

theorem alistLookup_insert_self (k : String) (v : α) (d : List (String × α)) :
    alistLookup k (alistInsert k v d) = some v := by
  induction d with
  | nil => simp [alistInsert, alistLookup]
  | cons p rest ih =>
      obtain ⟨k', v'⟩ := p
      by_cases h : k = k'
      · simp [alistInsert, alistLookup, h]
      · simp [alistInsert, alistLookup, h, ih]

theorem alistLookup_insert_other (k j : String) (v : α) (d : List (String × α))
    (hkj : j ≠ k) : alistLookup j (alistInsert k v d) = alistLookup j d := by
  induction d with
  | nil => simp [alistInsert, alistLookup, hkj]
  | cons p rest ih =>
      obtain ⟨k', v'⟩ := p
      by_cases h : k = k'
      · subst h
        simp [alistInsert, alistLookup, hkj]
      · by_cases h2 : j = k'
        · simp [alistInsert, alistLookup, h, h2]
        · simp [alistInsert, alistLookup, h, h2, ih]

theorem alistInsert_length_of_mem (k : String) (v : α) (d : List (String × α))
    (h : alistLookup k d ≠ none) :
    (alistInsert k v d).length = d.length := by
  induction d with
  | nil => simp [alistLookup] at h
  | cons p rest ih =>
      obtain ⟨k', v'⟩ := p
      by_cases hk : k = k'
      · simp [alistInsert, hk]
      · simp only [alistLookup, if_neg hk] at h
        simp [alistInsert, hk, ih h]

theorem dequeAppend_length_le (cap : Nat) (buf : List α) (x : α) :
    (dequeAppend cap buf x).length ≤ cap := by
  simp only [dequeAppend, List.length_drop]
  omega

/-- Folding `dequeAppend` keeps exactly the trailing `cap` elements. -/
theorem foldl_dequeAppend (cap : Nat) (xs : List α) :
    ∀ acc : List α, acc.length ≤ cap →
      xs.foldl (dequeAppend cap) acc = (acc ++ xs).drop ((acc ++ xs).length - cap) := by
  induction xs with
  | nil =>
      intro acc hacc
      simp only [List.foldl_nil, List.append_nil]
      rw [show acc.length - cap = 0 by omega, List.drop_zero]
  | cons x xs ih =>
      intro acc hacc
      have hlen : (dequeAppend cap acc x).length ≤ cap :=
        dequeAppend_length_le cap acc x
      rw [List.foldl_cons, ih _ hlen]
      have hA : dequeAppend cap acc x =
          (acc ++ [x]).drop ((acc ++ [x]).length - cap) := rfl
      have hle : (acc ++ [x]).length - cap ≤ (acc ++ [x]).length := by omega
      rw [hA, ← List.drop_append_of_le_length hle, List.drop_drop]
      have he : (acc ++ [x]) ++ xs = acc ++ x :: xs := by simp
      rw [he]
      congr 1
      have h1 : (acc ++ [x]).length = acc.length + 1 := by simp
      have h2 : (acc ++ x :: xs).length = acc.length + (xs.length + 1) := by
        rw [List.length_append, List.length_cons]
      simp only [List.length_drop, h1, h2]
      omega

theorem ratAdd_eq (a b : ℚ) : ratAdd a b = a + b := by
  have ha : ((a.den : ℚ)) ≠ 0 := Nat.cast_ne_zero.mpr a.den_nz
  have hb : ((b.den : ℚ)) ≠ 0 := Nat.cast_ne_zero.mpr b.den_nz
  conv_rhs => rw [← Rat.num_div_den a, ← Rat.num_div_den b]
  rw [ratAdd, Rat.mkRat_eq_div, div_add_div _ _ ha hb]
  push_cast
  ring_nf

theorem ratSub_eq (a b : ℚ) : ratSub a b = a - b := by
  have ha : ((a.den : ℚ)) ≠ 0 := Nat.cast_ne_zero.mpr a.den_nz
  have hb : ((b.den : ℚ)) ≠ 0 := Nat.cast_ne_zero.mpr b.den_nz
  conv_rhs => rw [← Rat.num_div_den a, ← Rat.num_div_den b]
  rw [ratSub, Rat.mkRat_eq_div, div_sub_div _ _ ha hb]
  push_cast
  ring_nf

theorem ratMul_eq (a b : ℚ) : ratMul a b = a * b := by
  conv_rhs => rw [← Rat.num_div_den a, ← Rat.num_div_den b]
  rw [ratMul, Rat.mkRat_eq_div, div_mul_div_comm]
  push_cast
  ring_nf

theorem rat_div_num_den (a b : ℚ) (hb : b ≠ 0) :
    ((a.num : ℚ) * (b.den : ℚ)) / ((a.den : ℚ) * (b.num : ℚ)) = a / b := by
  have had : ((a.den : ℚ)) ≠ 0 := Nat.cast_ne_zero.mpr a.den_nz
  have hbd : ((b.den : ℚ)) ≠ 0 := Nat.cast_ne_zero.mpr b.den_nz
  have hbn : ((b.num : ℚ)) ≠ 0 := Int.cast_ne_zero.mpr (Rat.num_ne_zero.mpr hb)
  have han : (a.num : ℚ) = a * a.den := (div_eq_iff had).mp (Rat.num_div_den a)
  have hbn' : (b.num : ℚ) = b * b.den := (div_eq_iff hbd).mp (Rat.num_div_den b)
  rw [div_eq_div_iff (mul_ne_zero had hbn) hb, han, hbn']
  ring

theorem ratDiv_eq (a b : ℚ) : ratDiv a b = a / b := by
  rw [ratDiv]
  split_ifs with hneg
  · have hb : b ≠ 0 := by
      intro h
      rw [h] at hneg
      simp at hneg
    have hcast : ((b.num.natAbs : ℕ) : ℚ) = -((b.num : ℤ) : ℚ) := by
      have h1 : ((b.num.natAbs : ℤ)) = -b.num :=
        Int.ofNat_natAbs_of_nonpos (le_of_lt hneg)
      rw [← Int.cast_natCast (R := ℚ), h1, Int.cast_neg]
    rw [Rat.mkRat_eq_div, Nat.cast_mul, hcast]
    push_cast
    rw [mul_neg, neg_div_neg_eq]
    exact rat_div_num_den a b hb
  · rcases eq_or_lt_of_le (not_lt.mp hneg) with h0 | hpos
    · have hb0 : b = 0 := Rat.num_eq_zero.mp h0.symm
      subst hb0
      simp
    · have hb : b ≠ 0 := Rat.num_ne_zero.mp (ne_of_gt hpos)
      have hcast : ((b.num.natAbs : ℕ) : ℚ) = ((b.num : ℤ) : ℚ) := by
        have h1 : ((b.num.natAbs : ℤ)) = b.num :=
          Int.natAbs_of_nonneg (le_of_lt hpos)
        rw [← Int.cast_natCast (R := ℚ), h1]
      rw [Rat.mkRat_eq_div, Nat.cast_mul, hcast]
      push_cast
      exact rat_div_num_den a b hb

theorem foldl_ratAdd (l : List ℚ) : ∀ acc : ℚ, l.foldl ratAdd acc = acc + l.sum := by
  induction l with
  | nil => intro acc; simp
  | cons x xs ih =>
      intro acc
      rw [List.foldl_cons, ih, ratAdd_eq, List.sum_cons, add_assoc]

theorem listSum_eq (l : List ℚ) : listSum l = l.sum := by
  rw [listSum, foldl_ratAdd, zero_add]

theorem groupByName_eq (buf : List Metric) (name : String) :
    groupByName buf name = buf.filter (fun m => m.name = name) := by
  suffices h : ∀ f0 : String → List Metric,
      (buf.foldl (fun acc m => fun n => if n = m.name then acc n ++ [m] else acc n) f0) name
        = f0 name ++ buf.filter (fun m => m.name = name) by
    simpa [groupByName] using h (fun _ => [])
  induction buf with
  | nil => intro f0; simp
  | cons m rest ih =>
      intro f0
      simp only [List.foldl_cons, List.filter_cons]
      by_cases h : m.name = name
      · rw [ih]
        simp [h]
      · rw [ih]
        have hne : ¬ name = m.name := fun hc => h hc.symm
        simp [h, hne]

theorem recordAll_buffer
    (inputs : List (ℚ × String × ℚ × List (String × String) × MetricType)) :
    ∀ s : ServiceState, (recordAll inputs s).metrics_buffer =
      (inputs.map metricOfInput).foldl (dequeAppend 10000) s.metrics_buffer := by
  induction inputs with
  | nil => intro s; rfl
  | cons i rest ih =>
      intro s
      simp only [recordAll, List.foldl_cons, List.map_cons]
      have h2 := ih (record_metric i.1 i.2.1 i.2.2.1 i.2.2.2.1 i.2.2.2.2 s)
      simp only [recordAll] at h2
      rw [h2]
      simp only [record_metric, metricOfInput]

/-- C1: for every metric whose name is registered in the service's
threshold table with pair (warning, critical), the dispatched check creates
exactly one CRITICAL alert request when value ≥ critical, exactly one
WARNING request and no CRITICAL one when warning ≤ value < critical, and no
request when value < warning; for a metric whose name is unregistered it
creates no request (and, being a total function, raises no error). -/
theorem C1_threshold_check (m : Metric) :
    (∀ w c, alistLookup m.name defaultThresholds = some (w, c) →
      (c ≤ m.value →
        ∃ r, check_metric_thresholds defaultThresholds m = [r] ∧
          r.level = AlertLevel.CRITICAL) ∧
      (w ≤ m.value → m.value < c →
        ∃ r, check_metric_thresholds defaultThresholds m = [r] ∧
          r.level = AlertLevel.WARNING) ∧
      (m.value < w → check_metric_thresholds defaultThresholds m = [])) ∧
    (alistLookup m.name defaultThresholds = none →
      check_metric_thresholds defaultThresholds m = []) := by
  constructor
  · intro w c hlk
    have hwc : w ≤ c := by
      simp only [defaultThresholds, alistLookup] at hlk
      split_ifs at hlk <;>
        first
          | (simp only [Option.some.injEq, Prod.mk.injEq] at hlk
             obtain ⟨h1, h2⟩ := hlk
             subst h1
             subst h2
             decide)
          | simp at hlk
    simp only [check_metric_thresholds, hlk]
    refine ⟨fun hcrit => ?_, fun hw hc => ?_, fun hlow => ?_⟩
    · rw [if_pos hcrit]
      exact ⟨_, rfl, rfl⟩
    · rw [if_neg (not_le.mpr hc), if_pos hw]
      exact ⟨_, rfl, rfl⟩
    · rw [if_neg (not_le.mpr (lt_of_lt_of_le hlow hwc)),
        if_neg (not_le.mpr hlow)]
  · intro hnone
    simp only [check_metric_thresholds, hnone]

/-- C1 witness: the registered name `response_time_ms` (thresholds
2000/5000) at value 6000 yields exactly one CRITICAL request. -/
theorem C1_threshold_check_witness :
    ∃ r, check_metric_thresholds defaultThresholds
        (mkGauge "response_time_ms" 6000 0) = [r] ∧
      r.level = AlertLevel.CRITICAL :=
  ((C1_threshold_check (mkGauge "response_time_ms" 6000 0)).1 2000 5000
    (by decide)).1 (by decide)

/-- C2: for every sequence of `record_metric` calls starting from the fresh
service, the ring buffer holds the most recently recorded metrics beyond
the fixed capacity 10000 in insertion order (the oldest evicted first), and
its length never exceeds 10000: after `C + k` insertions exactly the first
`k` inserted metrics are gone. -/
theorem C2_ring_buffer
    (inputs : List (ℚ × String × ℚ × List (String × String) × MetricType)) :
    (recordAll inputs initState).metrics_buffer
        = (inputs.map metricOfInput).drop (inputs.length - 10000) ∧
    (recordAll inputs initState).metrics_buffer.length = min inputs.length 10000 := by
  have h := recordAll_buffer inputs initState
  have h0 : initState.metrics_buffer = [] := rfl
  rw [h0] at h
  rw [h, foldl_dequeAppend 10000 _ [] (by simp)]
  constructor
  · simp [List.length_map]
  · simp only [List.length_drop, List.length_map, List.nil_append]
    omega

/-- C10: the query operations `get_system_health`, `get_performance_report`
and `_get_metrics_summary` mutate no service state: the second component of
each result is the entire starting state unchanged (hence the metrics
buffer, alert table, performance profiles, active-execution table, sliding
windows and subscriber set are all identical before and after the call). -/
theorem C10_queries_pure (now : ℚ) (execution_id : String) (s : ServiceState) :
    (get_system_health now s).2 = s ∧
    (get_performance_report execution_id s).2 = s ∧
    (get_metrics_summary now s).2 = s := by
  refine ⟨rfl, ?_, ?_⟩
  · unfold get_performance_report
    split <;> rfl
  · by_cases h : (recentMetrics now s.metrics_buffer).isEmpty
    · simp [get_metrics_summary, h]
    · simp [get_metrics_summary, h]

theorem critical_filter_pos (l : List (String × Alert)) :
    0 < (l.filter (fun p =>
        decide (p.2.level = AlertLevel.CRITICAL ∧ p.2.resolved = false))).length ↔
      ∃ p ∈ l, p.2.level = AlertLevel.CRITICAL ∧ p.2.resolved = false := by
  rw [List.length_pos_iff_exists_mem]
  constructor
  · rintro ⟨p, hp⟩
    rw [List.mem_filter] at hp
    exact ⟨p, hp.1, by simpa using hp.2⟩
  · rintro ⟨p, hp, hP⟩
    exact ⟨p, List.mem_filter.mpr ⟨hp, by simpa using hP⟩⟩

/-- C3 counterexample: at time 7200 the alert table of `stateC3` holds
exactly one alert — CRITICAL, unresolved, created at time 0, hence two
hours old, so no unresolved CRITICAL alert younger than 1 hour exists —
yet `get_system_health` still reports status "critical". This refutes the
claimed "if and only if" with the 1-hour age bound. -/
theorem C3_counterexample :
    (get_system_health 7200 stateC3).1.status = "critical" ∧
    ¬ ∃ p ∈ stateC3.alerts, p.2.level = AlertLevel.CRITICAL ∧
        p.2.resolved = false ∧ (7200 : ℚ) - p.2.timestamp < 3600 := by
  constructor
  · decide
  · rintro ⟨p, hp, hcrit, hres, hyoung⟩
    have hp' : p = ("alert-0", oldCriticalAlert) := by
      simpa [stateC3, initState] using hp
    subst hp'
    norm_num [oldCriticalAlert] at hyoung

/-- C3 amended: `get_system_health` returns status "critical" if and only
if the alert table contains at least one unresolved CRITICAL-level alert of
any age (the code applies no age bound), all other state held constant. -/
theorem C3_health_critical_iff (now : ℚ) (s : ServiceState) :
    (get_system_health now s).1.status = "critical" ↔
      ∃ p ∈ s.alerts, p.2.level = AlertLevel.CRITICAL ∧ p.2.resolved = false := by
  have hstatus : (get_system_health now s).1.status =
      (if 0 < (s.alerts.filter (fun p =>
          decide (p.2.level = AlertLevel.CRITICAL ∧ p.2.resolved = false))).length
        then "critical"
        else if 5 < ((s.metrics_buffer.filter
            (fun m => decide (ratSub now m.timestamp < 300))).filter
            (fun m => decide (m.name = "error_rate" ∧ 0 < m.value))).length
        then "degraded"
        else if 50 < runningCount s then "under_load"
        else "healthy") := rfl
  rw [hstatus]
  by_cases hc : 0 < (s.alerts.filter (fun p =>
      decide (p.2.level = AlertLevel.CRITICAL ∧ p.2.resolved = false))).length
  · rw [if_pos hc]
    exact iff_of_true rfl ((critical_filter_pos s.alerts).mp hc)
  · rw [if_neg hc]
    have hno : ¬ ∃ p ∈ s.alerts, p.2.level = AlertLevel.CRITICAL ∧
        p.2.resolved = false :=
      fun h => hc ((critical_filter_pos s.alerts).mpr h)
    refine iff_of_false ?_ hno
    split_ifs <;> decide

/-- C4 counterexample: at time 90 the buffer of `stateC4` holds one metric
(name "m") recorded at time 59 — within the last 60 time units — but in
the previous calendar minute; the aggregator appends no WindowPoint for it
(the minute window stays empty), and the hour and day windows also stay
empty instead of receiving rollups. This refutes the claimed
last-60-time-units grouping and the claimed hour/day rollups. -/
theorem C4_counterexample :
    (90 : ℚ) - 59 < 60 ∧
    (update_aggregations 90 stateC4).minute_metrics "m" = [] ∧
    (update_aggregations 90 stateC4).hour_metrics "m" = [] ∧
    (update_aggregations 90 stateC4).day_metrics "m" = [] := by
  refine ⟨by norm_num, by decide, rfl, rfl⟩

/-- C4 amended: on each tick the aggregator groups the buffered metrics
whose timestamp lies in the same calendar minute as the current time
(⌊ts/60⌋ = ⌊now/60⌋) by name and, for every name with at least one such
metric, appends exactly one WindowPoint (bucket timestamp ⌊now/60⌋·60 and
that group's avg/min/max/count) to the name's minute window of capacity 60
buckets; names with no such metric keep their minute window unchanged, and
the hour and day windows (capacities 60 and 24) are never written by the
aggregator, which also leaves the metrics buffer untouched. -/
theorem C4_update_aggregations (now : ℚ) (s : ServiceState) (name : String) :
    (minuteValues now s name = [] →
      (update_aggregations now s).minute_metrics name = s.minute_metrics name) ∧
    (minuteValues now s name ≠ [] →
      (update_aggregations now s).minute_metrics name =
        dequeAppend 60 (s.minute_metrics name)
          { timestamp := ratMul (((ratDiv now 60).floor : ℤ) : ℚ) 60
            avg := ratDiv (listSum (minuteValues now s name))
              ((minuteValues now s name).length : ℚ)
            min := listMin (minuteValues now s name)
            max := listMax (minuteValues now s name)
            count := (minuteValues now s name).length }) ∧
    (update_aggregations now s).hour_metrics = s.hour_metrics ∧
    (update_aggregations now s).day_metrics = s.day_metrics ∧
    (update_aggregations now s).metrics_buffer = s.metrics_buffer := by
  have hmv : (groupByName (s.metrics_buffer.filter (fun m =>
      decide ((ratDiv m.timestamp 60).floor = (ratDiv now 60).floor))) name).map
        (fun m => m.value) = minuteValues now s name := by
    rw [groupByName_eq]
    rfl
  refine ⟨fun hempty => ?_, fun hne => ?_, rfl, rfl, rfl⟩
  · simp only [update_aggregations]
    rw [hmv, hempty]
    simp
  · simp only [update_aggregations]
    rw [hmv]
    rw [if_neg (by simp [hne])]

/-- C4 witness: at time 90 with one metric of name "m", value 1, recorded
at time 61 (the current calendar minute), the aggregator appends exactly
the WindowPoint (bucket 60, avg/min/max 1, count 1) to the empty minute
window of "m". -/
theorem C4_update_aggregations_witness :
    (update_aggregations 90 stateC4b).minute_metrics "m" =
      [{ timestamp := 60, avg := 1, min := 1, max := 1, count := 1 }] := by
  have h := (C4_update_aggregations 90 stateC4b "m").2.1 (by decide)
  rw [h]
  decide

/-- C5 counterexample: `bufC5` holds exactly five `error_rate` samples, all
of value 1, recorded at time 0; at tick time 1000 the 5 most recent samples
of the metric therefore have mean 1, which exceeds 0.10, yet the tick emits
no pattern-based alert, because the code only considers samples recorded
within the last 60 time units and requires at least 5 of them. -/
theorem C5_counterexample :
    bufC5.length = 5 ∧
    (∀ m ∈ bufC5, m.name = "error_rate" ∧ m.value = 1) ∧
    mkRat 1 10 < 1 ∧
    process_alerts (recentMetrics 1000 bufC5) = [] := by decide

/-- C5 amended: a tick at time `now` considers only the `error_rate`
samples recorded within the last 60 time units; if at least 5 such samples
exist and the mean of the 5 most recent of them exceeds 0.10, exactly one
pattern-based CRITICAL alert request is emitted on that tick (this path
never consults the static thresholds); otherwise the tick emits none. -/
theorem C5_pattern_alert (now : ℚ) (buf : List Metric) :
    (5 ≤ (errorSamples now buf).length → mkRat 1 10 < errorMean now buf →
      ∃ r, process_alerts (recentMetrics now buf) = [r] ∧
        r.level = AlertLevel.CRITICAL) ∧
    (¬ (5 ≤ (errorSamples now buf).length ∧ mkRat 1 10 < errorMean now buf) →
      process_alerts (recentMetrics now buf) = []) := by
  have he : groupByName (recentMetrics now buf) "error_rate" =
      errorSamples now buf := by
    rw [groupByName_eq]
    rfl
  have hEM : errorMean now buf =
      ratDiv (listSum (((errorSamples now buf).drop
          ((errorSamples now buf).length - 5)).map (fun m => m.value)))
        (((((errorSamples now buf).drop
          ((errorSamples now buf).length - 5)).map (fun m => m.value)).length : ℕ) : ℚ) := rfl
  constructor
  · intro hlen hmean
    rw [hEM] at hmean
    simp only [process_alerts]
    rw [he, if_pos hlen, if_pos hmean]
    exact ⟨_, rfl, rfl⟩
  · intro hno
    simp only [process_alerts]
    rw [he]
    by_cases hlen : 5 ≤ (errorSamples now buf).length
    · rw [if_pos hlen]
      have hmean : ¬ mkRat 1 10 <
          ratDiv (listSum (((errorSamples now buf).drop
              ((errorSamples now buf).length - 5)).map (fun m => m.value)))
            (((((errorSamples now buf).drop
              ((errorSamples now buf).length - 5)).map (fun m => m.value)).length : ℕ) : ℚ) :=
        fun hm => hno ⟨hlen, by rw [hEM]; exact hm⟩
      rw [if_neg hmean]
    · rw [if_neg hlen]

/-- C5 witness: five `error_rate` samples of value 1 recorded at time 0,
observed by a tick at time 30 (all within the last 60 units): mean 1
exceeds 0.10 and exactly one CRITICAL request is emitted. -/
theorem C5_pattern_alert_witness :
    ∃ r, process_alerts (recentMetrics 30 bufC5) = [r] ∧
      r.level = AlertLevel.CRITICAL :=
  (C5_pattern_alert 30 bufC5).1 (by decide) (by decide)

theorem record_metric_profiles (now : ℚ) (name : String) (value : ℚ)
    (tags : List (String × String)) (ty : MetricType) (t : ServiceState) :
    (record_metric now name value tags ty t).performance_profiles =
      t.performance_profiles := by
  cases t
  rfl

theorem record_metric_active (now : ℚ) (name : String) (value : ℚ)
    (tags : List (String × String)) (ty : MetricType) (t : ServiceState) :
    (record_metric now name value tags ty t).active_executions =
      t.active_executions := by
  cases t
  rfl

theorem record_metric_alerts (now : ℚ) (name : String) (value : ℚ)
    (tags : List (String × String)) (ty : MetricType) (t : ServiceState) :
    (record_metric now name value tags ty t).alerts = t.alerts := by
  cases t
  rfl

/-- C6 counterexample: `end_execution_tracking` twice on the same id
recomputes the duration: after ending "e1" (started at time 0) at time 10
the profile's duration is 10000 ms, and a second end call at time 20
changes the already-set duration to 20000 ms — refuting "a duration that
has already been set is never changed again". -/
theorem C6_counterexample :
    (alistLookup "e1" stateE2.performance_profiles).map (fun p => p.duration_ms)
        = some (some 10000) ∧
    (alistLookup "e1" stateE3.performance_profiles).map (fun p => p.duration_ms)
        = some (some 20000) := by decide

/-- C6 amended: calling `end_execution_tracking` with an unknown execution
id changes no state, dispatches no alert task and raises no error; calling
it with a known id sets the profile's duration to (now − start_time)·1000
on every call, so a second end call overwrites the previously set duration
instead of leaving it unchanged. -/
theorem C6_end_execution (now : ℚ) (execution_id status : String)
    (error : Option String) (s : ServiceState) :
    (alistLookup execution_id s.performance_profiles = none →
      end_execution_tracking now execution_id status error s = (s, [])) ∧
    (∀ p, alistLookup execution_id s.performance_profiles = some p →
      (alistLookup execution_id
          (end_execution_tracking now execution_id status error s).1.performance_profiles).map
        (fun q => q.duration_ms) = some (some ((now - p.start_time) * 1000))) := by
  constructor
  · intro hnone
    simp only [end_execution_tracking, hnone]
  · intro p hp
    simp only [end_execution_tracking, hp, record_metric_profiles]
    split_ifs with hslow
    · simp only [record_metric_profiles]
      rw [alistLookup_insert_self]
      simp [ratMul_eq, ratSub_eq]
    · simp only [record_metric_profiles]
      rw [alistLookup_insert_self]
      simp [ratMul_eq, ratSub_eq]

/-- C6 witness: ending an unknown id leaves the fresh service unchanged and
dispatches nothing; ending "e1" (started at time 0) at time 10 sets the
duration to 10000 ms. -/
theorem C6_end_execution_witness :
    end_execution_tracking 5 "missing" "done" none initState = (initState, []) ∧
    (alistLookup "e1"
        (end_execution_tracking 10 "e1" "completed" none stateE1).1.performance_profiles).map
      (fun q => q.duration_ms) = some (some 10000) := by
  constructor
  · exact (C6_end_execution 5 "missing" "done" none initState).1 (by decide)
  · have h := (C6_end_execution 10 "e1" "completed" none stateE1).2
      { execution_id := "e1", start_time := 0, end_time := none, duration_ms := none
        cpu_usage := 0, memory_usage_mb := 0, network_io_kb := 0, disk_io_kb := 0
        function_calls := [], bottlenecks := [] } (by decide)
    rw [h]
    norm_num

/-- C7: evaluation at the failing input — the code does not reject a second
`start_execution_tracking` with the same id: after starting "e1" at time 0,
starting it again at time 5 replaces the stored profile (the table still
holds a single entry for it) and resets its start_time from 0 to 5. -/
theorem C7_duplicate_start :
    (alistLookup "e1" stateE1.performance_profiles).map (fun p => p.start_time)
        = some 0 ∧
    (alistLookup "e1" stateE4.performance_profiles).map (fun p => p.start_time)
        = some 5 ∧
    stateE4.performance_profiles.length = 1 := by decide

/-- C8 counterexample: the execution "e1" of `stateE2` has already ended
(its end_time is set to 10), yet `record_function_call` still appends to
its function-call list — refuting "appends only when the execution is
still active (started and not yet ended)". -/
theorem C8_counterexample :
    (alistLookup "e1" stateE2.performance_profiles).map (fun p => p.end_time)
        = some (some 10) ∧
    (alistLookup "e1" stateE2.performance_profiles).map (fun p => p.function_calls)
        = some [] ∧
    (alistLookup "e1" stateE5.performance_profiles).map (fun p => p.function_calls)
        = some [{ function := "fn", duration_ms := 5, timestamp := 30
                  success := true }] := by
  decide

/-- C8 amended: `record_function_call` appends one entry to the
function-call list of the profile stored under the given id whenever such a
profile exists — whether the execution is still active or already ended —
and for an unknown execution id it leaves the whole state unchanged and
raises no error. -/
theorem C8_record_function_call (now : ℚ) (execution_id : String)
    (function_name : String) (duration_ms : ℚ) (success : Bool)
    (s : ServiceState) :
    (alistLookup execution_id s.performance_profiles = none →
      record_function_call now execution_id function_name duration_ms success s = s) ∧
    (∀ p, alistLookup execution_id s.performance_profiles = some p →
      (alistLookup execution_id
          (record_function_call now execution_id function_name duration_ms
            success s).performance_profiles).map (fun q => q.function_calls) =
        some (p.function_calls ++
          [{ function := function_name, duration_ms := duration_ms
             timestamp := now, success := success }])) := by
  constructor
  · intro hnone
    simp only [record_function_call, hnone]
  · intro p hp
    simp only [record_function_call, hp, record_metric_profiles]
    rw [alistLookup_insert_self]
    simp

/-- C8 witness: an unknown id leaves the fresh service unchanged; appending
against the ended execution of `stateE2` stores exactly one call entry. -/
theorem C8_record_function_call_witness :
    record_function_call 30 "missing" "fn" 5 true initState = initState ∧
    (alistLookup "e1"
        (record_function_call 30 "e1" "fn" 5 true stateE2).performance_profiles).map
      (fun q => q.function_calls) =
        some [{ function := "fn", duration_ms := 5, timestamp := 30
                success := true }] := by
  constructor
  · exact (C8_record_function_call 30 "missing" "fn" 5 true initState).1 (by decide)
  · have h := (C8_record_function_call 30 "e1" "fn" 5 true stateE2).2
      { execution_id := "e1", start_time := 0, end_time := some 10
        duration_ms := some 10000, cpu_usage := 0, memory_usage_mb := 0
        network_io_kb := 0, disk_io_kb := 0, function_calls := []
        bottlenecks := ["slow_execution"] } (by decide)
    rw [h]
    rfl

theorem create_alert_alerts (now : ℚ) (req : AlertReq) (s : ServiceState) :
    (create_alert now req s).alerts =
      alistInsert (alertId now) (mkAlert now req) s.alerts := by
  cases s
  rfl

/-- C9 counterexample: two alert creations both at time 1 generate the same
id "alert-1000"; afterwards the alert table holds a single entry whose
title is that of the second request — the second creation overwrote the
first instead of adding a distinct record. -/
theorem C9_counterexample :
    alertId 1 = "alert-1000" ∧
    stateC9.alerts.length = 1 ∧
    (alistLookup (alertId 1) stateC9.alerts).map (fun a => a.title) = some "b" := by
  decide

/-- C9 amended: the alert id is derived from the creation time alone
(`"alert-"` followed by the millisecond count). Two creations whose
generated ids differ — equivalently, whose times fall in distinct
milliseconds — each store their own record, the earlier one staying
retrievable under its id; two creations within the same millisecond share
one id: the table does not grow and the second overwrites the first. -/
theorem C9_alert_ids (t1 t2 : ℚ) (r1 r2 : AlertReq) (s : ServiceState) :
    (alertId t1 ≠ alertId t2 →
      alistLookup (alertId t1)
          (create_alert t2 r2 (create_alert t1 r1 s)).alerts
        = some (mkAlert t1 r1) ∧
      alistLookup (alertId t2)
          (create_alert t2 r2 (create_alert t1 r1 s)).alerts
        = some (mkAlert t2 r2)) ∧
    (alertId t1 = alertId t2 →
      alistLookup (alertId t2)
          (create_alert t2 r2 (create_alert t1 r1 s)).alerts
        = some (mkAlert t2 r2) ∧
      (create_alert t2 r2 (create_alert t1 r1 s)).alerts.length
        = (create_alert t1 r1 s).alerts.length) := by
  constructor
  · intro hne
    constructor
    · rw [create_alert_alerts, create_alert_alerts,
        alistLookup_insert_other _ _ _ _ hne, alistLookup_insert_self]
    · rw [create_alert_alerts, alistLookup_insert_self]
  · intro heq
    constructor
    · rw [create_alert_alerts, alistLookup_insert_self]
    · rw [create_alert_alerts (s := create_alert t1 r1 s)]
      apply alistInsert_length_of_mem
      rw [← heq, create_alert_alerts, alistLookup_insert_self]
      simp

/-- C9 witness: creations at times 1 and 2 (ids "alert-1000" and
"alert-2000") both stay stored under their own ids; a repeat creation at
time 1 keeps the table length unchanged. -/
theorem C9_alert_ids_witness :
    (alistLookup (alertId 1)
        (create_alert 2 alertReq2 (create_alert 1 alertReq1 initState)).alerts
      = some (mkAlert 1 alertReq1) ∧
     alistLookup (alertId 2)
        (create_alert 2 alertReq2 (create_alert 1 alertReq1 initState)).alerts
      = some (mkAlert 2 alertReq2)) ∧
    (create_alert 1 alertReq2 (create_alert 1 alertReq1 initState)).alerts.length
      = (create_alert 1 alertReq1 initState).alerts.length := by
  constructor
  · exact (C9_alert_ids 1 2 alertReq1 alertReq2 initState).1 (by decide)
  · exact ((C9_alert_ids 1 1 alertReq1 alertReq2 initState).2 rfl).2
